import Mathlib

/-!
Shallow embedding of src/sockio/aio.py (the sockio repository).

The transport collaborator (the asyncio stream pair returned by
asyncio.open_connection) is modelled by `StreamReader` and `StreamWriter`: a `StreamReader`
carries the bytes the peer will deliver (`data`) together with the flag
`eof` saying that the peer has closed its sending side after those bytes;
a `StreamWriter` records the bytes written so far, whether close was requested,
and whether its graceful shutdown (wait_closed) completes without error.
Bytes are plain naturals; the newline byte is 10.

An await that would suspend forever with the modelled data (for example
readline on an open stream that holds no newline and no end-of-stream)
is made total by returning the error `IOErr.pending`; no claim below
depends on that constructor.

`Socket` mirrors the Python class field by field; `Socket.open'` is the
method named open in the source (open is a Lean keyword).  Each public
I/O operation is the `ensure_connection` wrapper applied to its body,
exactly as the decorator composes them in the source.  Results are given
by `Res`, which pairs an outcome (value or raised error) with the socket
state after the call, so that theorems can speak about the state on both
exit paths.  The asyncio lock is invisible to this sequential model; it
is treated by the small-step trace semantics further below.
-/

/-- Errors raised by the modelled operations, following section 7 of the
specification: the taxonomy of ConnectionError and asyncio errors the
source can raise, plus `pending` for an await that never completes. -/
inductive IOErr where
  | alreadyConnected
  | connectFailed
  | notConnected
  | incompleteRead
  | separatorNotFound
  | shutdownError
  | pending
deriving DecidableEq, Repr

/-- Model of an asyncio StreamReader: the bytes still to be delivered and
whether the peer has signalled end-of-stream after them. -/
structure StreamReader where
  data : List Nat
  eof : Bool
deriving DecidableEq, Repr

/-- Model of an asyncio StreamWriter: bytes written so far, whether close
was requested, and whether wait_closed completes without raising. -/
structure StreamWriter where
  sent : List Nat
  closed : Bool
  shutdown_ok : Bool
deriving DecidableEq, Repr

/-- StreamReader.at_eof: true when the internal buffer is empty and the
end-of-stream signal has been received. -/
def StreamReader.at_eof (r : StreamReader) : Bool :=
  r.data.isEmpty && r.eof

/-- Does the first list start with the second one? -/
def leadsWith : List Nat → List Nat → Bool
  | _, [] => true
  | [], _ :: _ => false
  | a :: as, b :: bs => (a == b) && leadsWith as bs

/-- Split a byte list at the first occurrence of the separator, returning
the chunk up to and including the separator together with the remainder;
`none` when the separator does not occur. -/
def splitUntil (sep : List Nat) : List Nat → Option (List Nat × List Nat)
  | [] => none
  | a :: as =>
    if leadsWith (a :: as) sep then some (sep, (a :: as).drop sep.length)
    else
      match splitUntil sep as with
      | some (pre, rest) => some (a :: pre, rest)
      | none => none

/-- StreamReader.readline: read up to and including the next newline;
at end-of-stream the remaining partial data is returned without error. -/
def StreamReader.readline (r : StreamReader) : Except IOErr (List Nat × StreamReader) :=
  match splitUntil [10] r.data with
  | some (line, rest) => .ok (line, { r with data := rest })
  | none =>
    if r.eof then .ok (r.data, { r with data := [] }) else .error .pending

/-- StreamReader.read: a negative count means read until end-of-stream;
otherwise return at most n buffered bytes, or empty at end-of-stream. -/
def StreamReader.read (n : Int) (r : StreamReader) : Except IOErr (List Nat × StreamReader) :=
  if n < 0 then
    if r.eof then .ok (r.data, { r with data := [] }) else .error .pending
  else if r.data.isEmpty then
    if r.eof then .ok ([], r)
    else if n == 0 then .ok ([], r)
    else .error .pending
  else .ok (r.data.take n.toNat, { r with data := r.data.drop n.toNat })

/-- StreamReader.readexactly: exactly n bytes, or IncompleteReadError if
the stream ends first. -/
def StreamReader.readexactly (n : Nat) (r : StreamReader) : Except IOErr (List Nat × StreamReader) :=
  if n ≤ r.data.length then .ok (r.data.take n, { r with data := r.data.drop n })
  else if r.eof then .error .incompleteRead
  else .error .pending

/-- StreamReader.readuntil: bytes up to and including the separator, or an
error if the stream ends before the separator occurs. -/
def StreamReader.readuntil (sep : List Nat) (r : StreamReader) : Except IOErr (List Nat × StreamReader) :=
  match splitUntil sep r.data with
  | some (chunk, rest) => .ok (chunk, { r with data := rest })
  | none =>
    if r.eof then .error .separatorNotFound else .error .pending

/-- StreamWriter.write (the following drain always succeeds here). -/
def StreamWriter.write (d : List Nat) (w : StreamWriter) : StreamWriter :=
  { w with sent := w.sent ++ d }

/-- Concatenation of a list of byte blocks, in order. -/
def joinAll : List (List Nat) → List Nat
  | [] => []
  | l :: ls => l ++ joinAll ls

/-- StreamWriter.writelines. -/
def StreamWriter.writelines (ls : List (List Nat)) (w : StreamWriter) : StreamWriter :=
  { w with sent := w.sent ++ joinAll ls }

/-- StreamWriter.close: requests the shutdown. -/
def StreamWriter.closeHandle (w : StreamWriter) : StreamWriter :=
  { w with closed := true }

/-- StreamWriter.wait_closed: awaits the shutdown, raising when the
transport reports an error while closing. -/
def StreamWriter.wait_closed (w : StreamWriter) : Except IOErr Unit :=
  if w.shutdown_ok then .ok () else .error .shutdownError

/-- The Socket class of src/sockio/aio.py, field by field.  The asyncio
lock is not part of the sequential state; it is modelled by the trace
semantics below. -/
structure Socket where
  host : String
  port : Nat
  auto_reconnect : Bool
  connection_counter : Nat
  reader : Option StreamReader
  writer : Option StreamWriter
deriving DecidableEq, Repr

/-- Socket.__init__: counter zero, no reader, no writer. -/
def mkSocket (host : String) (port : Nat) (auto_reconnect : Bool) : Socket :=
  ⟨host, port, auto_reconnect, 0, none, none⟩

/-- Outcome of a call: the returned value or the raised error, together
with the socket state on that exit path. -/
inductive Res (α : Type) where
  | ok (a : α) (s : Socket)
  | err (e : IOErr) (s : Socket)
deriving DecidableEq, Repr

/-- Socket state after the call, on either exit path. -/
def Res.state {α : Type} : Res α → Socket
  | .ok _ s => s
  | .err _ s => s

/-- Did the call return normally? -/
def Res.isOk {α : Type} : Res α → Bool
  | .ok _ _ => true
  | .err _ _ => false

/-- The connected property: False without a reader handle, otherwise the
negation of the at_eof report, re-evaluated at every call. -/
def Socket.connected (s : Socket) : Bool :=
  match s.reader with
  | none => false
  | some r => !(r.at_eof)

/-- What asyncio.open_connection yields for this socket: a fresh stream
pair, or a connection error. -/
def Conn := Except Unit (StreamReader × StreamWriter)

/-- Socket.open (open is a Lean keyword): raise if already connected,
otherwise store the fresh stream pair and increment the counter; a
failed establishment propagates and leaves the state unchanged. -/
def Socket.open' (conn : Conn) (s : Socket) : Res Unit :=
  if s.connected then .err .alreadyConnected s
  else
    match conn with
    | .error _ => .err .connectFailed s
    | .ok (r, w) =>
      .ok () { s with reader := some r, writer := some w,
                      connection_counter := s.connection_counter + 1 }

/-- Socket.close: when a writer exists, request close and await
wait_closed; an error there propagates and the handles stay in place,
otherwise both handles are cleared. -/
def Socket.close (s : Socket) : Res Unit :=
  match s.writer with
  | none => .ok () { s with reader := none, writer := none }
  | some w =>
    match (w.closeHandle).wait_closed with
    | .error e => .err e { s with writer := some w.closeHandle }
    | .ok _ => .ok () { s with reader := none, writer := none }

/-- The reconnect check inside ensure_connection: when auto_reconnect is
set and the socket is not connected, perform open. -/
def ensureStep (conn : Conn) (s : Socket) : Res Unit :=
  if s.auto_reconnect && !s.connected then Socket.open' conn s else .ok () s

/-- The ensure_connection decorator: run the reconnect check, then the
wrapped body; an error in the check propagates.  Sequentially the
coroutine branch and the async generator branch of the source compose
the same way; they differ only in lock scope, treated below. -/
def ensure_connection {α : Type} (body : Socket → Res α) (conn : Conn) (s : Socket) : Res α :=
  match ensureStep conn s with
  | .ok _ s1 => body s1
  | .err e s1 => .err e s1

/-- Body of Socket.read: await self._reader.read(n); a missing reader is
the NotConnected failure of operating on an absent connection. -/
def read_body (n : Int) (s : Socket) : Res (List Nat) :=
  match s.reader with
  | none => .err .notConnected s
  | some r =>
    match r.read n with
    | .error e => .err e s
    | .ok (bs, r1) => .ok bs { s with reader := some r1 }

/-- Body of Socket.readline: await self._reader.readline(). -/
def readline_body (s : Socket) : Res (List Nat) :=
  match s.reader with
  | none => .err .notConnected s
  | some r =>
    match r.readline with
    | .error e => .err e s
    | .ok (l, r1) => .ok l { s with reader := some r1 }

/-- The loop of the three streaming generators, fully consumed: n times
await self._reader.readline(), collecting the yielded lines.  The reader
is consulted inside each iteration, exactly as in the source, so zero
iterations never touch it. -/
def readLoop : Nat → Socket → Res (List (List Nat))
  | 0, s => .ok [] s
  | Nat.succ k, s =>
    match s.reader with
    | none => .err .notConnected s
    | some r =>
      match r.readline with
      | .error e => .err e s
      | .ok (l, r1) =>
        match readLoop k { s with reader := some r1 } with
        | .ok ls s1 => .ok (l :: ls) s1
        | .err e s1 => .err e s1

/-- Body of Socket.readlines(n): yield n lines. -/
def readlines_body (n : Nat) (s : Socket) : Res (List (List Nat)) :=
  readLoop n s

/-- Body of Socket.readexactly(n). -/
def readexactly_body (n : Nat) (s : Socket) : Res (List Nat) :=
  match s.reader with
  | none => .err .notConnected s
  | some r =>
    match r.readexactly n with
    | .error e => .err e s
    | .ok (bs, r1) => .ok bs { s with reader := some r1 }

/-- Body of Socket.readuntil(separator). -/
def readuntil_body (sep : List Nat) (s : Socket) : Res (List Nat) :=
  match s.reader with
  | none => .err .notConnected s
  | some r =>
    match r.readuntil sep with
    | .error e => .err e s
    | .ok (bs, r1) => .ok bs { s with reader := some r1 }

/-- Body of Socket.write(data): write then drain. -/
def write_body (d : List Nat) (s : Socket) : Res Unit :=
  match s.writer with
  | none => .err .notConnected s
  | some w => .ok () { s with writer := some (w.write d) }

/-- Body of Socket.writelines(lines): writelines then drain. -/
def writelines_body (ls : List (List Nat)) (s : Socket) : Res Unit :=
  match s.writer with
  | none => .err .notConnected s
  | some w => .ok () { s with writer := some (w.writelines ls) }

/-- Body of Socket.write_readline(data): write, drain, read one line. -/
def write_readline_body (d : List Nat) (s : Socket) : Res (List Nat) :=
  match s.writer with
  | none => .err .notConnected s
  | some w => readline_body { s with writer := some (w.write d) }

/-- Body of Socket.write_readlines(data, n): write, drain, yield n lines. -/
def write_readlines_body (d : List Nat) (n : Nat) (s : Socket) : Res (List (List Nat)) :=
  match s.writer with
  | none => .err .notConnected s
  | some w => readLoop n { s with writer := some (w.write d) }

/-- Body of Socket.writelines_readlines(lines, n): n defaults to the
number of lines written; writelines, drain, yield n lines. -/
def writelines_readlines_body (ls : List (List Nat)) (nOpt : Option Nat) (s : Socket) :
    Res (List (List Nat)) :=
  match s.writer with
  | none => .err .notConnected s
  | some w => readLoop (nOpt.getD ls.length) { s with writer := some (w.writelines ls) }

/-- Socket.read, wrapped by the decorator. -/
def Socket.read (conn : Conn) (n : Int) (s : Socket) : Res (List Nat) :=
  ensure_connection (read_body n) conn s

/-- Socket.readline, wrapped by the decorator. -/
def Socket.readline (conn : Conn) (s : Socket) : Res (List Nat) :=
  ensure_connection readline_body conn s

/-- Socket.readlines, wrapped by the decorator, fully consumed. -/
def Socket.readlines (conn : Conn) (n : Nat) (s : Socket) : Res (List (List Nat)) :=
  ensure_connection (readlines_body n) conn s

/-- Socket.readexactly, wrapped by the decorator. -/
def Socket.readexactly (conn : Conn) (n : Nat) (s : Socket) : Res (List Nat) :=
  ensure_connection (readexactly_body n) conn s

/-- Socket.readuntil, wrapped by the decorator. -/
def Socket.readuntil (conn : Conn) (sep : List Nat) (s : Socket) : Res (List Nat) :=
  ensure_connection (readuntil_body sep) conn s

/-- Socket.write, wrapped by the decorator. -/
def Socket.write (conn : Conn) (d : List Nat) (s : Socket) : Res Unit :=
  ensure_connection (write_body d) conn s

/-- Socket.writelines, wrapped by the decorator. -/
def Socket.writelines (conn : Conn) (ls : List (List Nat)) (s : Socket) : Res Unit :=
  ensure_connection (writelines_body ls) conn s

/-- Socket.write_readline, wrapped by the decorator. -/
def Socket.write_readline (conn : Conn) (d : List Nat) (s : Socket) : Res (List Nat) :=
  ensure_connection (write_readline_body d) conn s

/-- Socket.write_readlines, wrapped by the decorator, fully consumed. -/
def Socket.write_readlines (conn : Conn) (d : List Nat) (n : Nat) (s : Socket) :
    Res (List (List Nat)) :=
  ensure_connection (write_readlines_body d n) conn s

/-- Socket.writelines_readlines, wrapped by the decorator, fully
consumed. -/
def Socket.writelines_readlines (conn : Conn) (ls : List (List Nat)) (nOpt : Option Nat)
    (s : Socket) : Res (List (List Nat)) :=
  ensure_connection (writelines_readlines_body ls nOpt) conn s

/-- The ten public I/O operations of the class, with their arguments. -/
inductive Op where
  | read (n : Int)
  | readline
  | readlines (n : Nat)
  | readexactly (n : Nat)
  | readuntil (sep : List Nat)
  | write (d : List Nat)
  | writelines (ls : List (List Nat))
  | write_readline (d : List Nat)
  | write_readlines (d : List Nat) (n : Nat)
  | writelines_readlines (ls : List (List Nat)) (nOpt : Option Nat)
deriving DecidableEq, Repr

/-- Value returned by a public operation: a byte block, a sequence of
lines, or nothing. -/
inductive Out where
  | bytes (bs : List Nat)
  | lines (ls : List (List Nat))
  | unit
deriving DecidableEq, Repr

/-- Repackage the value of a result, keeping outcome and state. -/
def Res.mapVal {α β : Type} (f : α → β) : Res α → Res β
  | .ok a s => .ok (f a) s
  | .err e s => .err e s

/-- One dispatcher over the ten wrapped public operations. -/
def runOp (conn : Conn) (op : Op) (s : Socket) : Res Out :=
  match op with
  | .read n => (Socket.read conn n s).mapVal Out.bytes
  | .readline => (Socket.readline conn s).mapVal Out.bytes
  | .readlines n => (Socket.readlines conn n s).mapVal Out.lines
  | .readexactly n => (Socket.readexactly conn n s).mapVal Out.bytes
  | .readuntil sep => (Socket.readuntil conn sep s).mapVal Out.bytes
  | .write d => (Socket.write conn d s).mapVal (fun _ => Out.unit)
  | .writelines ls => (Socket.writelines conn ls s).mapVal (fun _ => Out.unit)
  | .write_readline d => (Socket.write_readline conn d s).mapVal Out.bytes
  | .write_readlines d n => (Socket.write_readlines conn d n s).mapVal Out.lines
  | .writelines_readlines ls nOpt => (Socket.writelines_readlines conn ls nOpt s).mapVal Out.lines

/-- The same dispatcher over the unwrapped bodies: what the operation
does against live handles, with no reconnect logic in front. -/
def bodyOf (op : Op) (s : Socket) : Res Out :=
  match op with
  | .read n => (read_body n s).mapVal Out.bytes
  | .readline => (readline_body s).mapVal Out.bytes
  | .readlines n => (readlines_body n s).mapVal Out.lines
  | .readexactly n => (readexactly_body n s).mapVal Out.bytes
  | .readuntil sep => (readuntil_body sep s).mapVal Out.bytes
  | .write d => (write_body d s).mapVal (fun _ => Out.unit)
  | .writelines ls => (writelines_body ls s).mapVal (fun _ => Out.unit)
  | .write_readline d => (write_readline_body d s).mapVal Out.bytes
  | .write_readlines d n => (write_readlines_body d n s).mapVal Out.lines
  | .writelines_readlines ls nOpt => (writelines_readlines_body ls nOpt s).mapVal Out.lines

/-- The socket state right after the one implicit open performed on a
fresh auto-reconnecting socket whose transport yields the pair (r, w). -/
def opened (host : String) (port : Nat) (r : StreamReader) (w : StreamWriter) : Socket :=
  ⟨host, port, true, 1, some r, some w⟩

/-- Atomic steps of a wrapped operation, as the two branches of the
ensure_connection decorator schedule them around the asyncio lock:
acquire and release of self._lock, the reconnect check together with any
implicit open it performs, the transport work of a coroutine operation,
and the production of one item of an async generator. -/
inductive Evt where
  | acquire
  | release
  | reconnect
  | work
  | produce
deriving DecidableEq, Repr

/-- The coroutine branch of ensure_connection: the whole body runs
between acquire and release. -/
def coroutineProg : List Evt :=
  [Evt.acquire, Evt.reconnect, Evt.work, Evt.release]

/-- The async generator branch of ensure_connection: the lock is taken
for the reconnect check and the creation of the generator only, and the
n items are produced after the release. -/
def asyncGenProg (n : Nat) : List Evt :=
  Evt.acquire :: Evt.reconnect :: Evt.release :: List.replicate n Evt.produce

/-- One public call a caller makes: a plain coroutine operation, or a
streaming operation whose sequence holds n items. -/
inductive Call where
  | plain
  | streaming (n : Nat)
deriving DecidableEq, Repr

/-- The action sequence of one call. -/
def callProg : Call → List Evt
  | .plain => coroutineProg
  | .streaming n => asyncGenProg n

/-- The action sequence of a caller issuing its calls one after the
other. -/
def sched : List Call → List Evt
  | [] => []
  | c :: cs => callProg c ++ sched cs

/-- Control states of the per-task shape automaton: outside the lock,
just acquired, after the reconnect check, after the coroutine body. -/
inductive Ph where
  | outside
  | entered
  | checked
  | ran
deriving DecidableEq, Repr

/-- One transition of the shape automaton. -/
def stepSt : Ph → Evt → Option Ph
  | .outside, .acquire => some .entered
  | .outside, .produce => some .outside
  | .entered, .reconnect => some .checked
  | .checked, .work => some .ran
  | .checked, .release => some .outside
  | .ran, .release => some .outside
  | _, _ => none

/-- Run the shape automaton over a whole action list. -/
def runSt : Ph → List Evt → Option Ph
  | s, [] => some s
  | s, a :: r =>
    match stepSt s a with
    | some t => runSt t r
    | none => none

/-- An action list is well formed from state s when the automaton
consumes it completely and ends outside the lock. -/
def wfAt (s : Ph) (p : List Evt) : Prop :=
  runSt s p = some Ph.outside

/-- A task whose next release comes before its next acquire is inside
the gate: it has acquired the lock and not yet released it. -/
def inGate : List Evt → Bool
  | [] => false
  | Evt.acquire :: _ => false
  | Evt.release :: _ => true
  | Evt.reconnect :: r => inGate r
  | Evt.work :: r => inGate r
  | Evt.produce :: r => inGate r

/-- Global state of the concurrent system: who holds the lock, and the
remaining actions of every task. -/
structure Sys where
  lock : Option Nat
  tasks : Nat → List Evt

/-- Replace the remaining actions of one task. -/
def setTask (ts : Nat → List Evt) (i : Nat) (p : List Evt) : Nat → List Evt :=
  fun j => if j = i then p else ts j

/-- Interleaving semantics.  Acquire fires only when the lock is free and
records the holder; release fires only for the holder, as the scoped
acquisition of the source releases the lock the task itself holds.  The
three working steps carry no lock-side condition at all: whatever mutual
exclusion they enjoy must emerge from the placement of acquire and
release in the compiled programs. -/
inductive Step : Sys → Sys → Prop
  | sAcq (σ : Sys) (i : Nat) (r : List Evt) :
      σ.tasks i = Evt.acquire :: r → σ.lock = none →
      Step σ ⟨some i, setTask σ.tasks i r⟩
  | sRel (σ : Sys) (i : Nat) (r : List Evt) :
      σ.tasks i = Evt.release :: r → σ.lock = some i →
      Step σ ⟨none, setTask σ.tasks i r⟩
  | sChk (σ : Sys) (i : Nat) (r : List Evt) :
      σ.tasks i = Evt.reconnect :: r →
      Step σ ⟨σ.lock, setTask σ.tasks i r⟩
  | sWork (σ : Sys) (i : Nat) (r : List Evt) :
      σ.tasks i = Evt.work :: r →
      Step σ ⟨σ.lock, setTask σ.tasks i r⟩
  | sProd (σ : Sys) (i : Nat) (r : List Evt) :
      σ.tasks i = Evt.produce :: r →
      Step σ ⟨σ.lock, setTask σ.tasks i r⟩

/-- Reflexive transitive closure of the interleaving semantics. -/
inductive Reachable (σ0 : Sys) : Sys → Prop
  | refl : Reachable σ0 σ0
  | tail {σ σ1 : Sys} : Reachable σ0 σ → Step σ σ1 → Reachable σ0 σ1

/-- Initial configurations: the lock is free and every task is a
sequence of public calls compiled by the decorator. -/
def Init (σ : Sys) : Prop :=
  σ.lock = none ∧ ∀ i, ∃ cs : List Call, σ.tasks i = sched cs

/-- The inductive invariant: the holder of the lock is mid-gate in one
of the three inside states of the shape automaton, and every other task
is well formed from the outside state. -/
def SysInv (σ : Sys) : Prop :=
  ∀ i, (σ.lock = some i →
          wfAt Ph.entered (σ.tasks i) ∨ wfAt Ph.checked (σ.tasks i) ∨ wfAt Ph.ran (σ.tasks i))
     ∧ (σ.lock ≠ some i → wfAt Ph.outside (σ.tasks i))

/-- A fixed host name used by the concrete instances below. -/
def hostA : String := "h"

/-- Two callers, each issuing one plain coroutine operation. -/
def tasksC1 : Nat → List Evt :=
  fun i => if i = 0 then coroutineProg else if i = 1 then coroutineProg else []

/-- Initial configuration with the two plain callers. -/
def sysC1a : Sys := ⟨none, tasksC1⟩

/-- The configuration after caller 0 acquires the lock. -/
def sysC1b : Sys := ⟨some 0, setTask tasksC1 0 [Evt.reconnect, Evt.work, Evt.release]⟩

/-- Caller 0 issues a streaming operation of two items, caller 1 a plain
coroutine operation. -/
def tasksC2 : Nat → List Evt :=
  fun i => if i = 0 then asyncGenProg 2 else if i = 1 then coroutineProg else []

/-- Initial configuration with the streaming caller and the plain
caller. -/
def sysC2a : Sys := ⟨none, tasksC2⟩

/-- Caller 0 has acquired the lock. -/
def sysC2b : Sys := ⟨some 0, setTask tasksC2 0 [Evt.reconnect, Evt.release, Evt.produce, Evt.produce]⟩

/-- Caller 0 has run its reconnect check inside the lock. -/
def sysC2c : Sys := ⟨some 0, setTask sysC2b.tasks 0 [Evt.release, Evt.produce, Evt.produce]⟩

/-- Caller 0 has released the lock; both items of its sequence are still
unproduced, so its stream is not yet consumed at all. -/
def sysC2d : Sys := ⟨none, setTask sysC2c.tasks 0 [Evt.produce, Evt.produce]⟩

/-- Caller 1 has acquired the lock while caller 0 still has its whole
sequence left to produce. -/
def sysC2e : Sys := ⟨some 1, setTask sysC2d.tasks 1 [Evt.reconnect, Evt.work, Evt.release]⟩

theorem Res.state_mapVal {α β : Type} (f : α → β) (x : Res α) :
    (x.mapVal f).state = x.state := by
  cases x <;> rfl

theorem Res.isOk_mapVal {α β : Type} (f : α → β) (x : Res α) :
    (x.mapVal f).isOk = x.isOk := by
  cases x <;> rfl

theorem counter_readline_body (s : Socket) :
    ((readline_body s).state).connection_counter = s.connection_counter := by
  unfold readline_body
  split
  · rfl
  · split <;> rfl

theorem counter_readLoop : ∀ (n : Nat) (s : Socket),
    ((readLoop n s).state).connection_counter = s.connection_counter := by
  intro n
  induction n with
  | zero => intro s; rfl
  | succ k ih =>
    intro s
    unfold readLoop
    split
    · rfl
    · split
      · rfl
      · rename_i r hr l r1 hl
        split
        · rename_i ls s1 hres
          have h2 := ih { s with reader := some r1 }
          rw [hres] at h2
          simpa using h2
        · rename_i e s1 hres
          have h2 := ih { s with reader := some r1 }
          rw [hres] at h2
          simpa using h2

theorem counter_bodyOf (op : Op) (s : Socket) :
    ((bodyOf op s).state).connection_counter = s.connection_counter := by
  cases op with
  | read n =>
    simp only [bodyOf, Res.state_mapVal, read_body]
    split
    · rfl
    · split <;> rfl
  | readline =>
    simp only [bodyOf, Res.state_mapVal]
    exact counter_readline_body s
  | readlines n =>
    simp only [bodyOf, Res.state_mapVal, readlines_body]
    exact counter_readLoop n s
  | readexactly n =>
    simp only [bodyOf, Res.state_mapVal, readexactly_body]
    split
    · rfl
    · split <;> rfl
  | readuntil sep =>
    simp only [bodyOf, Res.state_mapVal, readuntil_body]
    split
    · rfl
    · split <;> rfl
  | write d =>
    simp only [bodyOf, Res.state_mapVal, write_body]
    split <;> rfl
  | writelines ls =>
    simp only [bodyOf, Res.state_mapVal, writelines_body]
    split <;> rfl
  | write_readline d =>
    simp only [bodyOf, Res.state_mapVal, write_readline_body]
    split
    · rfl
    · exact counter_readline_body _
  | write_readlines d n =>
    simp only [bodyOf, Res.state_mapVal, write_readlines_body]
    split
    · rfl
    · exact counter_readLoop n _
  | writelines_readlines ls nOpt =>
    simp only [bodyOf, Res.state_mapVal, writelines_readlines_body]
    split
    · rfl
    · exact counter_readLoop _ _

/-- C6: after a successful open the connection counter increases by
exactly one, and open on an already connected Socket fails with the
AlreadyConnected error, leaving the whole state, counter and stored
handles included, unchanged. -/
theorem open_counter_spec (conn : Conn) (s : Socket) :
    (s.connected = true → Socket.open' conn s = Res.err IOErr.alreadyConnected s) ∧
    ((Socket.open' conn s).isOk = true →
      ((Socket.open' conn s).state).connection_counter = s.connection_counter + 1) := by
  constructor
  · intro h
    unfold Socket.open'
    rw [h]
    rfl
  · intro h
    unfold Socket.open' at h ⊢
    by_cases hc : s.connected = true
    · rw [hc] at h
      simp [Res.isOk] at h
    · have hc2 : s.connected = false := by
        cases h3 : s.connected
        · rfl
        · exact absurd h3 hc
      rw [hc2] at h ⊢
      cases conn with
      | error u => simp [Res.isOk] at h
      | ok p => obtain ⟨r, w⟩ := p; rfl

/-- C6 witness: a concrete connected socket makes open fail with
AlreadyConnected, and a concrete successful open moves the counter from
0 to 1. -/
theorem open_counter_spec_witness :
    ((Socket.mk hostA 1 true 3 (some (StreamReader.mk [97] false)) none).connected = true) ∧
    (Socket.open' (Except.error ())
        (Socket.mk hostA 1 true 3 (some (StreamReader.mk [97] false)) none) =
      Res.err IOErr.alreadyConnected
        (Socket.mk hostA 1 true 3 (some (StreamReader.mk [97] false)) none)) ∧
    ((Socket.open' (Except.ok (StreamReader.mk [] false, StreamWriter.mk [] false true))
        (mkSocket hostA 1 true)).isOk = true) ∧
    (((Socket.open' (Except.ok (StreamReader.mk [] false, StreamWriter.mk [] false true))
        (mkSocket hostA 1 true)).state).connection_counter = 0 + 1) :=
  ⟨rfl,
   (open_counter_spec (Except.error ())
      (Socket.mk hostA 1 true 3 (some (StreamReader.mk [97] false)) none)).1 rfl,
   rfl,
   (open_counter_spec (Except.ok (StreamReader.mk [] false, StreamWriter.mk [] false true))
      (mkSocket hostA 1 true)).2 rfl⟩

/-- C7: connected is false whenever no reader handle exists, in
particular right after construction and after a successful close, and
with a handle present it is exactly the negation of the at_eof report of
the transport, re-evaluated from the current reader state on every
call. -/
theorem connected_spec (s : Socket) (host : String) (port : Nat) (ar : Bool) :
    (s.reader = none → s.connected = false) ∧
    (mkSocket host port ar).connected = false ∧
    (∀ s1, Socket.close s = Res.ok () s1 → s1.connected = false) ∧
    (∀ r, s.reader = some r → s.connected = !(r.at_eof)) := by
  refine ⟨?_, rfl, ?_, ?_⟩
  · intro h
    unfold Socket.connected
    rw [h]
  · intro s1 h
    unfold Socket.close at h
    split at h
    · injection h with h1 h2
      rw [← h2]
      rfl
    · split at h
      · exact absurd h (by simp)
      · injection h with h1 h2
        rw [← h2]
        rfl
  · intro r h
    unfold Socket.connected
    rw [h]

/-- C7 witness: concrete instances for all four conjuncts, among them a
reader that has hit end-of-stream making connected report false with the
handle still in place. -/
theorem connected_spec_witness :
    ((mkSocket hostA 7 true).reader = none) ∧
    ((mkSocket hostA 7 true).connected = false) ∧
    ((Socket.mk hostA 7 true 1 (some (StreamReader.mk [] true)) none).reader =
        some (StreamReader.mk [] true)) ∧
    ((Socket.mk hostA 7 true 1 (some (StreamReader.mk [] true)) none).connected =
        !((StreamReader.mk [] true).at_eof)) :=
  ⟨rfl,
   (connected_spec (mkSocket hostA 7 true) hostA 7 true).1 rfl,
   rfl,
   (connected_spec (Socket.mk hostA 7 true 1 (some (StreamReader.mk [] true)) none)
      hostA 7 true).2.2.2 (StreamReader.mk [] true) rfl⟩

/-- C8: close on a socket with no handles is an exact no-op that raises
nothing and reports disconnected, and after any successful close a
second close again returns normally on the same state, with connected
false both times. -/
theorem close_idempotent (s : Socket) :
    (s.reader = none → s.writer = none → Socket.close s = Res.ok () s ∧ s.connected = false) ∧
    (∀ s1, Socket.close s = Res.ok () s1 →
      s1.connected = false ∧ Socket.close s1 = Res.ok () s1) := by
  constructor
  · intro hr hw
    obtain ⟨h0, p0, a0, c0, rd, wr⟩ := s
    simp only at hr hw
    subst hr
    subst hw
    exact ⟨rfl, rfl⟩
  · intro s1 h
    unfold Socket.close at h
    split at h
    · injection h with h1 h2
      rw [← h2]
      exact ⟨rfl, rfl⟩
    · split at h
      · exact absurd h (by simp)
      · injection h with h1 h2
        rw [← h2]
        exact ⟨rfl, rfl⟩

/-- C8 witness: a freshly constructed socket, closed twice. -/
theorem close_idempotent_witness :
    (Socket.close (mkSocket hostA 2 false) = Res.ok () (mkSocket hostA 2 false) ∧
      (mkSocket hostA 2 false).connected = false) ∧
    ((mkSocket hostA 2 false).connected = false ∧
      Socket.close (mkSocket hostA 2 false) = Res.ok () (mkSocket hostA 2 false)) :=
  ⟨(close_idempotent (mkSocket hostA 2 false)).1 rfl rfl,
   (close_idempotent (mkSocket hostA 2 false)).2 (mkSocket hostA 2 false)
     ((close_idempotent (mkSocket hostA 2 false)).1 rfl rfl).1⟩

/-- C5 counterexample: on a connected socket whose transport reports an
error during graceful shutdown, close raises to the caller instead of
returning normally, and the connection handle is not cleared.  The
source awaits wait_closed with no exception handling, so the final
clearing assignments are skipped on that path. -/
theorem close_raises_counterexample :
    ((Socket.close (Socket.mk hostA 1 true 1 (some (StreamReader.mk [] true))
        (some (StreamWriter.mk [] false false)))).isOk = false) ∧
    (Socket.close (Socket.mk hostA 1 true 1 (some (StreamReader.mk [] true))
        (some (StreamWriter.mk [] false false))) =
      Res.err IOErr.shutdownError
        (Socket.mk hostA 1 true 1 (some (StreamReader.mk [] true))
          (some (StreamWriter.mk [] true false)))) ∧
    (((Socket.close (Socket.mk hostA 1 true 1 (some (StreamReader.mk [] true))
        (some (StreamWriter.mk [] false false)))).state).writer ≠ none) :=
  ⟨rfl, rfl, by simp [Socket.close, StreamWriter.closeHandle, StreamWriter.wait_closed, Res.state]⟩

/-- C5 amended: close returns normally and clears both handles whenever
no writer handle exists or the transport shutdown completes without
error; when the shutdown reports an error, close propagates that error
to the caller and the handles are left in place, the writer now marked
as closing. -/
theorem close_shutdown_cases (s : Socket) :
    (s.writer = none → Socket.close s = Res.ok () { s with reader := none, writer := none }) ∧
    (∀ w, s.writer = some w → w.shutdown_ok = true →
      Socket.close s = Res.ok () { s with reader := none, writer := none }) ∧
    (∀ w, s.writer = some w → w.shutdown_ok = false →
      Socket.close s = Res.err IOErr.shutdownError { s with writer := some w.closeHandle }) := by
  refine ⟨?_, ?_, ?_⟩
  · intro h
    unfold Socket.close
    rw [h]
  · intro w hw hok
    unfold Socket.close
    rw [hw]
    simp [StreamWriter.wait_closed, StreamWriter.closeHandle, hok]
  · intro w hw hok
    unfold Socket.close
    rw [hw]
    simp [StreamWriter.wait_closed, StreamWriter.closeHandle, hok]

/-- C5 witness: concrete sockets for the clean cases and for the
raising case of close. -/
theorem close_shutdown_cases_witness :
    (Socket.close (mkSocket hostA 3 true) =
      Res.ok () { mkSocket hostA 3 true with reader := none, writer := none }) ∧
    (Socket.close (Socket.mk hostA 3 true 1 (some (StreamReader.mk [] false))
        (some (StreamWriter.mk [] false true))) =
      Res.ok () (Socket.mk hostA 3 true 1 none none)) ∧
    (Socket.close (Socket.mk hostA 3 true 1 (some (StreamReader.mk [] false))
        (some (StreamWriter.mk [] false false))) =
      Res.err IOErr.shutdownError
        (Socket.mk hostA 3 true 1 (some (StreamReader.mk [] false))
          (some ((StreamWriter.mk [] false false).closeHandle)))) :=
  ⟨(close_shutdown_cases (mkSocket hostA 3 true)).1 rfl,
   (close_shutdown_cases (Socket.mk hostA 3 true 1 (some (StreamReader.mk [] false))
      (some (StreamWriter.mk [] false true)))).2.1 (StreamWriter.mk [] false true) rfl rfl,
   (close_shutdown_cases (Socket.mk hostA 3 true 1 (some (StreamReader.mk [] false))
      (some (StreamWriter.mk [] false false)))).2.2 (StreamWriter.mk [] false false) rfl rfl⟩

/-- C10: with a stale reader handle that reports end-of-stream, the
socket counts as disconnected, so open, called explicitly or from the
reconnect check, does not raise AlreadyConnected: it stores the fresh
stream pair over the stale handles, with no close of the old transport
anywhere on the path, and increments the connection counter. -/
theorem reopen_after_eof (s : Socket) (r r1 : StreamReader) (w1 : StreamWriter)
    (hr : s.reader = some r) (he : r.at_eof = true) :
    Socket.open' (Except.ok (r1, w1)) s =
      Res.ok () { s with reader := some r1, writer := some w1,
                         connection_counter := s.connection_counter + 1 } ∧
    (s.auto_reconnect = true →
      ensureStep (Except.ok (r1, w1)) s =
        Res.ok () { s with reader := some r1, writer := some w1,
                           connection_counter := s.connection_counter + 1 }) := by
  have hc : s.connected = false := by
    simp [Socket.connected, hr, he]
  have hopen : Socket.open' (Except.ok (r1, w1)) s =
      Res.ok () { s with reader := some r1, writer := some w1,
                         connection_counter := s.connection_counter + 1 } := by
    unfold Socket.open'
    rw [hc]
    rfl
  refine ⟨hopen, ?_⟩
  intro ha
  have hcond : (s.auto_reconnect && !s.connected) = true := by
    rw [ha, hc]
    rfl
  unfold ensureStep
  rw [hcond]
  simpa using hopen

/-- C10 witness: a socket holding a drained reader at end-of-stream is
reopened, explicitly and through the reconnect check. -/
theorem reopen_after_eof_witness :
    ((StreamReader.mk [] true).at_eof = true) ∧
    (Socket.open' (Except.ok (StreamReader.mk [104] false, StreamWriter.mk [] false true))
        (Socket.mk hostA 9 true 1 (some (StreamReader.mk [] true))
          (some (StreamWriter.mk [] false true))) =
      Res.ok () (Socket.mk hostA 9 true 2 (some (StreamReader.mk [104] false))
        (some (StreamWriter.mk [] false true)))) ∧
    (ensureStep (Except.ok (StreamReader.mk [104] false, StreamWriter.mk [] false true))
        (Socket.mk hostA 9 true 1 (some (StreamReader.mk [] true))
          (some (StreamWriter.mk [] false true))) =
      Res.ok () (Socket.mk hostA 9 true 2 (some (StreamReader.mk [104] false))
        (some (StreamWriter.mk [] false true)))) :=
  ⟨rfl,
   (reopen_after_eof (Socket.mk hostA 9 true 1 (some (StreamReader.mk [] true))
      (some (StreamWriter.mk [] false true))) (StreamReader.mk [] true)
      (StreamReader.mk [104] false) (StreamWriter.mk [] false true) rfl rfl).1,
   (reopen_after_eof (Socket.mk hostA 9 true 1 (some (StreamReader.mk [] true))
      (some (StreamWriter.mk [] false true))) (StreamReader.mk [] true)
      (StreamReader.mk [104] false) (StreamWriter.mk [] false true) rfl rfl).2 rfl⟩

theorem runOp_eq_ensure (conn : Conn) (op : Op) (s : Socket) :
    runOp conn op s = ensure_connection (bodyOf op) conn s := by
  unfold ensure_connection
  cases h : ensureStep conn s with
  | ok a s1 =>
    cases op <;>
      simp [runOp, bodyOf, Socket.read, Socket.readline, Socket.readlines, Socket.readexactly,
        Socket.readuntil, Socket.write, Socket.writelines, Socket.write_readline,
        Socket.write_readlines, Socket.writelines_readlines, ensure_connection, h]
  | err e s1 =>
    cases op <;>
      simp [runOp, bodyOf, Socket.read, Socket.readline, Socket.readlines, Socket.readexactly,
        Socket.readuntil, Socket.write, Socket.writelines, Socket.write_readline,
        Socket.write_readlines, Socket.writelines_readlines, ensure_connection, h, Res.mapVal]

theorem ensureStep_fresh (r : StreamReader) (w : StreamWriter) (host : String) (port : Nat) :
    ensureStep (Except.ok (r, w)) (mkSocket host port true) =
      Res.ok () (opened host port r w) := rfl

/-- C3: with auto_reconnect enabled, any of the ten public operations on
a freshly constructed, never-opened socket performs exactly one implicit
open, taking the connection counter from 0 to 1, and returns normally
whenever its body succeeds against the stream pair the transport
supplies. -/
theorem auto_reconnect_first_op (host : String) (port : Nat) (op : Op)
    (r : StreamReader) (w : StreamWriter)
    (h : (bodyOf op (opened host port r w)).isOk = true) :
    (runOp (Except.ok (r, w)) op (mkSocket host port true)).isOk = true ∧
    ((runOp (Except.ok (r, w)) op (mkSocket host port true)).state).connection_counter = 1 ∧
    (mkSocket host port true).connection_counter = 0 := by
  have he : runOp (Except.ok (r, w)) op (mkSocket host port true)
      = bodyOf op (opened host port r w) := by
    rw [runOp_eq_ensure]
    unfold ensure_connection
    rw [ensureStep_fresh]
  refine ⟨?_, ?_, rfl⟩
  · rw [he]
    exact h
  · rw [he, counter_bodyOf]
    rfl

/-- C3 witness: a write_readline call on a fresh auto-reconnecting
socket whose transport supplies one newline-terminated response. -/
theorem auto_reconnect_first_op_witness :
    ((bodyOf (Op.write_readline [42, 10])
        (opened hostA 5 (StreamReader.mk [97, 10] true) (StreamWriter.mk [] false true))).isOk
      = true) ∧
    ((runOp (Except.ok (StreamReader.mk [97, 10] true, StreamWriter.mk [] false true))
        (Op.write_readline [42, 10]) (mkSocket hostA 5 true)).isOk = true) ∧
    (((runOp (Except.ok (StreamReader.mk [97, 10] true, StreamWriter.mk [] false true))
        (Op.write_readline [42, 10]) (mkSocket hostA 5 true)).state).connection_counter = 1) :=
  ⟨rfl,
   (auto_reconnect_first_op hostA 5 (Op.write_readline [42, 10])
      (StreamReader.mk [97, 10] true) (StreamWriter.mk [] false true) rfl).1,
   (auto_reconnect_first_op hostA 5 (Op.write_readline [42, 10])
      (StreamReader.mk [97, 10] true) (StreamWriter.mk [] false true) rfl).2.1⟩

/-- C4 counterexample: readlines(0) on a disconnected socket with
auto_reconnect disabled completes without any error and yields the
empty sequence, because the generator body never touches the absent
reader; the claim that every public operation fails with NotConnected
is therefore false at this input. -/
theorem manual_readlines_zero_succeeds :
    runOp (Except.error ()) (Op.readlines 0) (mkSocket hostA 5 false) =
      Res.ok (Out.lines []) (mkSocket hostA 5 false) ∧
    (runOp (Except.error ()) (Op.readlines 0) (mkSocket hostA 5 false)).isOk = true :=
  ⟨rfl, rfl⟩

/-- C4 amended: on a disconnected socket with auto_reconnect disabled,
no public operation performs any implicit open, the state, counter
included, is left untouched, and every operation other than readlines
with count 0 fails with NotConnected; readlines(0) alone returns the
empty sequence without error. -/
theorem no_auto_reconnect_outcome (conn : Conn) (op : Op) (host : String) (port : Nat) :
    ((runOp conn op (mkSocket host port false)).state = mkSocket host port false) ∧
    (op ≠ Op.readlines 0 →
      runOp conn op (mkSocket host port false) =
        Res.err IOErr.notConnected (mkSocket host port false)) ∧
    (runOp conn (Op.readlines 0) (mkSocket host port false) =
      Res.ok (Out.lines []) (mkSocket host port false)) := by
  refine ⟨?_, ?_, rfl⟩
  · cases op with
    | read n => rfl
    | readline => rfl
    | readlines n =>
      cases n with
      | zero => rfl
      | succ k => rfl
    | readexactly n => rfl
    | readuntil sep => rfl
    | write d => rfl
    | writelines ls => rfl
    | write_readline d => rfl
    | write_readlines d n => rfl
    | writelines_readlines ls nOpt => rfl
  · intro hop
    cases op with
    | read n => rfl
    | readline => rfl
    | readlines n =>
      cases n with
      | zero => exact absurd rfl hop
      | succ k => rfl
    | readexactly n => rfl
    | readuntil sep => rfl
    | write d => rfl
    | writelines ls => rfl
    | write_readline d => rfl
    | write_readlines d n => rfl
    | writelines_readlines ls nOpt => rfl

/-- C4 witness: a plain read on the disconnected manual socket fails
with NotConnected and changes nothing. -/
theorem no_auto_reconnect_outcome_witness :
    (Op.read (-1) ≠ Op.readlines 0) ∧
    ((runOp (Except.error ()) (Op.read (-1)) (mkSocket hostA 5 false)).state =
      mkSocket hostA 5 false) ∧
    (runOp (Except.error ()) (Op.read (-1)) (mkSocket hostA 5 false) =
      Res.err IOErr.notConnected (mkSocket hostA 5 false)) :=
  ⟨by decide,
   (no_auto_reconnect_outcome (Except.error ()) (Op.read (-1)) hostA 5).1,
   (no_auto_reconnect_outcome (Except.error ()) (Op.read (-1)) hostA 5).2.1 (by decide)⟩

theorem readline_eof {r : StreamReader} (he : r.eof = true) :
    ∃ l r1, r.readline = Except.ok (l, r1) ∧ r1.eof = true := by
  unfold StreamReader.readline
  cases h : splitUntil [10] r.data with
  | some p =>
    obtain ⟨l, rest⟩ := p
    exact ⟨l, { r with data := rest }, rfl, he⟩
  | none =>
    refine ⟨r.data, ⟨[], true⟩, ?_, rfl⟩
    simp [he]

theorem readLoop_eof : ∀ (n : Nat) (s : Socket) (r : StreamReader),
    s.reader = some r → r.eof = true →
    ∃ ls r1, readLoop n s = Res.ok ls { s with reader := some r1 } ∧
      ls.length = n ∧ r1.eof = true := by
  intro n
  induction n with
  | zero =>
    intro s r hr he
    refine ⟨[], r, ?_, rfl, he⟩
    have hs : { s with reader := some r } = s := by
      obtain ⟨h0, p0, a0, c0, rd, wr⟩ := s
      simp only at hr
      rw [hr]
    rw [hs]
    rfl
  | succ k ih =>
    intro s r hr he
    obtain ⟨l, r1, hline, he1⟩ := readline_eof he
    obtain ⟨ls, r2, hloop, hlen, he2⟩ := ih { s with reader := some r1 } r1 rfl he1
    refine ⟨l :: ls, r2, ?_, by simp [hlen], he2⟩
    unfold readLoop
    rw [hr]
    simp only [hline, hloop]

theorem ensure_connection_ok {α : Type} (body : Socket → Res α) (conn : Conn) (s s1 : Socket)
    (h : ensureStep conn s = Res.ok () s1) :
    ensure_connection body conn s = body s1 := by
  unfold ensure_connection
  rw [h]

/-- C9: for writelines_readlines the omitted count defaults to the
number of lines written; on a connected socket whose stream has reached
its final data (so every readline completes), the call writes all the
lines to the transport, and yields exactly count lines. -/
theorem writelines_readlines_default_count (conn : Conn) (lines : List (List Nat))
    (s : Socket) (r : StreamReader) (w : StreamWriter)
    (hr : s.reader = some r) (hw : s.writer = some w)
    (hc : s.connected = true) (he : r.eof = true) :
    Socket.writelines_readlines conn lines none s =
      Socket.writelines_readlines conn lines (some lines.length) s ∧
    ∃ ls s1, Socket.writelines_readlines conn lines none s = Res.ok ls s1 ∧
      ls.length = lines.length ∧ s1.writer = some (w.writelines lines) := by
  have hens : ensureStep conn s = Res.ok () s := by
    unfold ensureStep
    rw [hc]
    simp
  constructor
  · unfold Socket.writelines_readlines
    rw [ensure_connection_ok _ conn s s hens, ensure_connection_ok _ conn s s hens]
    rfl
  · unfold Socket.writelines_readlines
    rw [ensure_connection_ok _ conn s s hens]
    unfold writelines_readlines_body
    rw [hw]
    obtain ⟨ls, r1, hloop, hlen, he1⟩ :=
      readLoop_eof lines.length { s with writer := some (w.writelines lines) } r hr he
    refine ⟨ls, { s with reader := some r1, writer := some (w.writelines lines) },
      ?_, hlen, rfl⟩
    exact hloop

/-- C9 witness: one line written on a connected socket whose stream
holds one final response line; the omitted count behaves as count 1 and
exactly one line is yielded. -/
theorem writelines_readlines_default_count_witness :
    ((Socket.mk hostA 1 true 0 (some (StreamReader.mk [97, 10] true))
        (some (StreamWriter.mk [] false true))).connected = true) ∧
    (Socket.writelines_readlines (Except.error ()) [[104, 10]] none
        (Socket.mk hostA 1 true 0 (some (StreamReader.mk [97, 10] true))
          (some (StreamWriter.mk [] false true))) =
      Socket.writelines_readlines (Except.error ()) [[104, 10]] (some 1)
        (Socket.mk hostA 1 true 0 (some (StreamReader.mk [97, 10] true))
          (some (StreamWriter.mk [] false true)))) ∧
    (∃ ls s1,
      Socket.writelines_readlines (Except.error ()) [[104, 10]] none
          (Socket.mk hostA 1 true 0 (some (StreamReader.mk [97, 10] true))
            (some (StreamWriter.mk [] false true))) =
        Res.ok ls s1 ∧
      ls.length = 1 ∧
      s1.writer = some ((StreamWriter.mk [] false true).writelines [[104, 10]])) :=
  ⟨rfl,
   (writelines_readlines_default_count (Except.error ()) [[104, 10]]
      (Socket.mk hostA 1 true 0 (some (StreamReader.mk [97, 10] true))
        (some (StreamWriter.mk [] false true)))
      (StreamReader.mk [97, 10] true) (StreamWriter.mk [] false true)
      rfl rfl rfl rfl).1,
   (writelines_readlines_default_count (Except.error ()) [[104, 10]]
      (Socket.mk hostA 1 true 0 (some (StreamReader.mk [97, 10] true))
        (some (StreamWriter.mk [] false true)))
      (StreamReader.mk [97, 10] true) (StreamWriter.mk [] false true)
      rfl rfl rfl rfl).2⟩

theorem setTask_self (ts : Nat → List Evt) (i : Nat) (p : List Evt) :
    setTask ts i p i = p := by
  simp [setTask]

theorem setTask_other (ts : Nat → List Evt) (i : Nat) (p : List Evt) (j : Nat) (h : j ≠ i) :
    setTask ts i p j = ts j := by
  simp [setTask, h]

theorem runSt_cons_some {s t : Ph} {a : Evt} (h : stepSt s a = some t) (r : List Evt) :
    runSt s (a :: r) = runSt t r := by
  simp [runSt, h]

theorem runSt_cons_none {s : Ph} {a : Evt} (h : stepSt s a = none) (r : List Evt) :
    runSt s (a :: r) = none := by
  simp [runSt, h]

theorem runSt_append : ∀ (p : List Evt) (s t : Ph) (q : List Evt),
    runSt s p = some t → runSt s (p ++ q) = runSt t q := by
  intro p
  induction p with
  | nil =>
    intro s t q h
    have h2 : s = t := by simpa [runSt] using h
    subst h2
    rfl
  | cons a r ih =>
    intro s t q h
    cases h2 : stepSt s a with
    | none => rw [runSt_cons_none h2] at h; exact absurd h (by simp)
    | some u =>
      rw [runSt_cons_some h2] at h
      rw [List.cons_append, runSt_cons_some h2]
      exact ih u t q h

theorem runSt_replicate_produce : ∀ n : Nat,
    runSt Ph.outside (List.replicate n Evt.produce) = some Ph.outside := by
  intro n
  induction n with
  | zero => rfl
  | succ k ih =>
    rw [List.replicate_succ]
    rw [runSt_cons_some (show stepSt Ph.outside Evt.produce = some Ph.outside from rfl)]
    exact ih

theorem wf_callProg (c : Call) : runSt Ph.outside (callProg c) = some Ph.outside := by
  cases c with
  | plain => rfl
  | streaming n =>
    show runSt Ph.outside
      (Evt.acquire :: Evt.reconnect :: Evt.release :: List.replicate n Evt.produce) =
        some Ph.outside
    rw [runSt_cons_some (show stepSt Ph.outside Evt.acquire = some Ph.entered from rfl)]
    rw [runSt_cons_some (show stepSt Ph.entered Evt.reconnect = some Ph.checked from rfl)]
    rw [runSt_cons_some (show stepSt Ph.checked Evt.release = some Ph.outside from rfl)]
    exact runSt_replicate_produce n

theorem wf_sched : ∀ cs : List Call, wfAt Ph.outside (sched cs) := by
  intro cs
  induction cs with
  | nil => rfl
  | cons c cs ih =>
    show runSt Ph.outside (callProg c ++ sched cs) = some Ph.outside
    rw [runSt_append (callProg c) Ph.outside Ph.outside (sched cs) (wf_callProg c)]
    exact ih

theorem inGate_eq_false_of_outside : ∀ p : List Evt, wfAt Ph.outside p → inGate p = false := by
  intro p
  induction p with
  | nil => intro h; rfl
  | cons a r ih =>
    intro h
    cases a with
    | acquire => rfl
    | release => exact absurd h (by simp [wfAt, runSt, stepSt])
    | reconnect => exact absurd h (by simp [wfAt, runSt, stepSt])
    | work => exact absurd h (by simp [wfAt, runSt, stepSt])
    | produce =>
      have h2 : wfAt Ph.outside r := by simpa [wfAt, runSt, stepSt] using h
      simpa [inGate] using ih h2

theorem inGate_eq_true_of_inside : ∀ (p : List Evt) (s : Ph),
    (s = Ph.entered ∨ s = Ph.checked ∨ s = Ph.ran) → wfAt s p → inGate p = true := by
  intro p
  induction p with
  | nil =>
    intro s hs h
    rcases hs with h1 | h1 | h1 <;> subst h1 <;> exact absurd h (by simp [wfAt, runSt])
  | cons a r ih =>
    intro s hs h
    rcases hs with h1 | h1 | h1 <;> subst h1
    · cases a with
      | reconnect =>
        have h2 : wfAt Ph.checked r := by simpa [wfAt, runSt, stepSt] using h
        simpa [inGate] using ih Ph.checked (Or.inr (Or.inl rfl)) h2
      | acquire => exact absurd h (by simp [wfAt, runSt, stepSt])
      | release => exact absurd h (by simp [wfAt, runSt, stepSt])
      | work => exact absurd h (by simp [wfAt, runSt, stepSt])
      | produce => exact absurd h (by simp [wfAt, runSt, stepSt])
    · cases a with
      | work =>
        have h2 : wfAt Ph.ran r := by simpa [wfAt, runSt, stepSt] using h
        simpa [inGate] using ih Ph.ran (Or.inr (Or.inr rfl)) h2
      | release => rfl
      | acquire => exact absurd h (by simp [wfAt, runSt, stepSt])
      | reconnect => exact absurd h (by simp [wfAt, runSt, stepSt])
      | produce => exact absurd h (by simp [wfAt, runSt, stepSt])
    · cases a with
      | release => rfl
      | acquire => exact absurd h (by simp [wfAt, runSt, stepSt])
      | reconnect => exact absurd h (by simp [wfAt, runSt, stepSt])
      | work => exact absurd h (by simp [wfAt, runSt, stepSt])
      | produce => exact absurd h (by simp [wfAt, runSt, stepSt])

theorem inv_init {σ : Sys} (h : Init σ) : SysInv σ := by
  obtain ⟨hl, ht⟩ := h
  intro i
  constructor
  · intro hli
    rw [hl] at hli
    exact absurd hli (by simp)
  · intro _
    obtain ⟨cs, hcs⟩ := ht i
    rw [hcs]
    exact wf_sched cs

theorem inv_step {σ σ1 : Sys} (hs : Step σ σ1) (hi : SysInv σ) : SysInv σ1 := by
  cases hs with
  | sAcq i r ht hl =>
    intro j
    constructor
    · intro hj
      have hij : i = j := Option.some.inj hj
      subst hij
      left
      dsimp only
      rw [setTask_self]
      have h0 : wfAt Ph.outside (σ.tasks i) := (hi i).2 (by simp [hl])
      rw [ht] at h0
      simpa [wfAt, runSt, stepSt] using h0
    · intro hj
      have hji : j ≠ i := by
        intro h2
        exact hj (by rw [h2])
      dsimp only
      rw [setTask_other _ _ _ _ hji]
      exact (hi j).2 (by simp [hl])
  | sRel i r ht hl =>
    intro j
    constructor
    · intro hj
      exact absurd hj (by simp)
    · intro _
      by_cases hji : j = i
      · subst hji
        dsimp only
        rw [setTask_self]
        have h0 := (hi j).1 hl
        rw [ht] at h0
        rcases h0 with h0 | h0 | h0
        · exact absurd h0 (by simp [wfAt, runSt, stepSt])
        · simpa [wfAt, runSt, stepSt] using h0
        · simpa [wfAt, runSt, stepSt] using h0
      · dsimp only
        rw [setTask_other _ _ _ _ hji]
        refine (hi j).2 ?_
        rw [hl]
        intro h2
        exact hji (Option.some.inj h2).symm
  | sChk i r ht =>
    intro j
    by_cases hli : σ.lock = some i
    · constructor
      · intro hj
        by_cases hji : j = i
        · subst hji
          dsimp only
          rw [setTask_self]
          have h0 := (hi j).1 hli
          rw [ht] at h0
          rcases h0 with h0 | h0 | h0
          · right
            left
            simpa [wfAt, runSt, stepSt] using h0
          · exact absurd h0 (by simp [wfAt, runSt, stepSt])
          · exact absurd h0 (by simp [wfAt, runSt, stepSt])
        · have hij : j = i := Option.some.inj (hj.symm.trans hli)
          exact absurd hij hji
      · intro hj
        by_cases hji : j = i
        · subst hji
          exact absurd hli hj
        · dsimp only
          rw [setTask_other _ _ _ _ hji]
          exact (hi j).2 hj
    · have h0 := (hi i).2 hli
      rw [ht] at h0
      exact absurd h0 (by simp [wfAt, runSt, stepSt])
  | sWork i r ht =>
    intro j
    by_cases hli : σ.lock = some i
    · constructor
      · intro hj
        by_cases hji : j = i
        · subst hji
          dsimp only
          rw [setTask_self]
          have h0 := (hi j).1 hli
          rw [ht] at h0
          rcases h0 with h0 | h0 | h0
          · exact absurd h0 (by simp [wfAt, runSt, stepSt])
          · right
            right
            simpa [wfAt, runSt, stepSt] using h0
          · exact absurd h0 (by simp [wfAt, runSt, stepSt])
        · have hij : j = i := Option.some.inj (hj.symm.trans hli)
          exact absurd hij hji
      · intro hj
        by_cases hji : j = i
        · subst hji
          exact absurd hli hj
        · dsimp only
          rw [setTask_other _ _ _ _ hji]
          exact (hi j).2 hj
    · have h0 := (hi i).2 hli
      rw [ht] at h0
      exact absurd h0 (by simp [wfAt, runSt, stepSt])
  | sProd i r ht =>
    intro j
    by_cases hli : σ.lock = some i
    · have h0 := (hi i).1 hli
      rw [ht] at h0
      rcases h0 with h0 | h0 | h0 <;> exact absurd h0 (by simp [wfAt, runSt, stepSt])
    · constructor
      · intro hj
        by_cases hji : j = i
        · subst hji
          exact absurd hj hli
        · dsimp only
          rw [setTask_other _ _ _ _ hji]
          exact (hi j).1 hj
      · intro hj
        by_cases hji : j = i
        · subst hji
          dsimp only
          rw [setTask_self]
          have h0 := (hi j).2 hli
          rw [ht] at h0
          simpa [wfAt, runSt, stepSt] using h0
        · dsimp only
          rw [setTask_other _ _ _ _ hji]
          exact (hi j).2 hj

theorem inv_reachable {σ0 σ : Sys} (h0 : Init σ0) (hr : Reachable σ0 σ) : SysInv σ := by
  induction hr with
  | refl => exact inv_init h0
  | tail _ hs ih => exact inv_step hs ih

/-- C1: over every initial configuration of concurrent callers issuing
any sequence of the public operations, in every reachable state at most
one caller sits inside the gate, and the reconnect check with its
implicit open, as well as the transport body of a plain coroutine
operation, only ever execute while their caller holds the lock: the
critical sections guarded by the gate are serialized. -/
theorem gate_mutual_exclusion (σ0 σ : Sys) (h0 : Init σ0) (hr : Reachable σ0 σ) :
    (∀ i j, inGate (σ.tasks i) = true → inGate (σ.tasks j) = true → i = j) ∧
    (∀ i r, σ.tasks i = Evt.reconnect :: r → σ.lock = some i) ∧
    (∀ i r, σ.tasks i = Evt.work :: r → σ.lock = some i) := by
  have hi := inv_reachable h0 hr
  have hlock : ∀ i, inGate (σ.tasks i) = true → σ.lock = some i := by
    intro i hg
    by_cases h : σ.lock = some i
    · exact h
    · have h2 := (hi i).2 h
      rw [inGate_eq_false_of_outside _ h2] at hg
      exact absurd hg (by simp)
  refine ⟨?_, ?_, ?_⟩
  · intro i j hgi hgj
    exact Option.some.inj ((hlock i hgi).symm.trans (hlock j hgj))
  · intro i r ht
    by_cases h : σ.lock = some i
    · exact h
    · have h2 := (hi i).2 h
      rw [ht] at h2
      exact absurd h2 (by simp [wfAt, runSt, stepSt])
  · intro i r ht
    by_cases h : σ.lock = some i
    · exact h
    · have h2 := (hi i).2 h
      rw [ht] at h2
      exact absurd h2 (by simp [wfAt, runSt, stepSt])

theorem initC1 : Init sysC1a := by
  constructor
  · rfl
  · intro i
    by_cases h0 : i = 0
    · subst h0
      exact ⟨[Call.plain], by simp [sysC1a, tasksC1, sched, callProg]⟩
    · by_cases h1 : i = 1
      · subst h1
        exact ⟨[Call.plain], by simp [sysC1a, tasksC1, sched, callProg, h0]⟩
      · exact ⟨[], by simp [sysC1a, tasksC1, sched, h0, h1]⟩

theorem reachC1 : Reachable sysC1a sysC1b :=
  Reachable.tail Reachable.refl
    (Step.sAcq sysC1a 0 [Evt.reconnect, Evt.work, Evt.release] rfl rfl)

/-- C1 witness: in the concrete reachable state where caller 0 has just
acquired the lock, the theorem forces caller 1 to be outside the
gate. -/
theorem gate_mutual_exclusion_witness : inGate (sysC1b.tasks 1) = false := by
  have h := (gate_mutual_exclusion sysC1a sysC1b initC1 reachC1).1 0 1
  cases hb : inGate (sysC1b.tasks 1) with
  | false => rfl
  | true => exact absurd (h rfl hb) (by simp)

theorem initC2 : Init sysC2a := by
  constructor
  · rfl
  · intro i
    by_cases h0 : i = 0
    · subst h0
      exact ⟨[Call.streaming 2], by simp [sysC2a, tasksC2, sched, callProg]⟩
    · by_cases h1 : i = 1
      · subst h1
        exact ⟨[Call.plain], by simp [sysC2a, tasksC2, sched, callProg, h0]⟩
      · exact ⟨[], by simp [sysC2a, tasksC2, sched, h0, h1]⟩

theorem reachC2d : Reachable sysC2a sysC2d :=
  Reachable.tail (Reachable.tail (Reachable.tail Reachable.refl
    (Step.sAcq sysC2a 0 [Evt.reconnect, Evt.release, Evt.produce, Evt.produce] rfl rfl))
    (Step.sChk sysC2b 0 [Evt.release, Evt.produce, Evt.produce] rfl))
    (Step.sRel sysC2c 0 [Evt.produce, Evt.produce] rfl rfl)

theorem reachC2e : Reachable sysC2a sysC2e :=
  Reachable.tail reachC2d
    (Step.sAcq sysC2d 1 [Evt.reconnect, Evt.work, Evt.release] rfl rfl)

/-- C2 counterexample: from the initial configuration where caller 0
issues a streaming operation of two items and caller 1 a plain
operation, the system reaches a state in which caller 0 still has both
items of its sequence unproduced, its stream not yet consumed at all,
while caller 1 holds the lock with its critical section executing: the
gate is not held for the production of the streaming sequence, because
the async generator branch of ensure_connection releases the lock
before the first item is produced. -/
theorem streaming_gate_counterexample :
    Init sysC2a ∧ Reachable sysC2a sysC2e ∧
    sysC2e.tasks 0 = [Evt.produce, Evt.produce] ∧
    inGate (sysC2e.tasks 0) = false ∧
    inGate (sysC2e.tasks 1) = true ∧
    sysC2e.lock = some 1 :=
  ⟨initC2, reachC2e, rfl, rfl, rfl, rfl⟩

/-- C2 amended: a streaming operation holds the gate only for the
reconnect check and the creation of its generator; the lock is released
before any item is produced, so in every reachable state a caller about
to produce an item of its sequence never holds the lock, and other
operations may interleave their critical sections between the items of
a lazily consumed sequence. -/
theorem streaming_releases_gate_before_production (σ0 σ : Sys) (i : Nat) (r : List Evt)
    (h0 : Init σ0) (hr : Reachable σ0 σ) (ht : σ.tasks i = Evt.produce :: r) :
    σ.lock ≠ some i := by
  have hi := inv_reachable h0 hr
  intro hl
  have h1 := (hi i).1 hl
  rw [ht] at h1
  rcases h1 with h1 | h1 | h1 <;> exact absurd h1 (by simp [wfAt, runSt, stepSt])

/-- C2 amended witness: caller 0, about to produce the first item of
its stream in the concrete reachable state, does not hold the lock. -/
theorem streaming_releases_gate_before_production_witness :
    sysC2d.tasks 0 = Evt.produce :: [Evt.produce] ∧ sysC2d.lock ≠ some 0 :=
  ⟨rfl, streaming_releases_gate_before_production sysC2a sysC2d 0 [Evt.produce]
    initC2 reachC2d rfl⟩
